import Mathlib

/-!
Verification development for the QR-code Telegram bot (`bot.py`).

The file shallowly embeds the bot's core pipeline — colour resolution
(`ImageColor.getrgb`), QR encoding with version auto-fit and fixed
error-correction level H (the `qrcode` library driven by `generate_qr`),
the pixel-level renderer (`make_image` with `box_size=10`, `border=4`,
converted to RGBA), the per-user conversation state held in
`context.user_data`, the history table, and the `handle_message` /
`button_handler` control flow — and proves the specified properties
about the embedding.
-/

namespace QRBot

/-! ## Strings

Python string operations used by the bot (`str.split`, `in`, `str.lower`,
`len` of the UTF-8 encoding) are embedded structurally over the character
list of a `String`, so that every definition evaluates by kernel
reduction. -/

/-- Python `s.split(c)` on a character list: splits at every occurrence of
`c`, keeping empty segments, and yields `[[]]` on the empty input, exactly
like `str.split` with an explicit separator. -/
def splitCharList (c : Char) : List Char → List (List Char)
  | [] => [[]]
  | x :: xs =>
    let r := splitCharList c xs
    if x = c then [] :: r
    else
      match r with
      | [] => [[x]]
      | y :: ys => (x :: y) :: ys

/-- Python `text.split(sep)` for a one-character separator. -/
def pySplit (s : String) (c : Char) : List String :=
  (splitCharList c s.data).map String.mk

/-- Python `c in s` for a character. -/
def pyContains (s : String) (c : Char) : Bool :=
  s.data.contains c

/-- Lower-casing as performed by `str.lower` on the ASCII names the bot
deals in. -/
def lowerStr (s : String) : String :=
  ⟨s.data.map Char.toLower⟩

/-- Size in bytes of one character under UTF-8, the encoding the `qrcode`
library applies to the payload before measuring it against the capacity
tables. -/
def utf8Len (c : Char) : Nat :=
  if c.toNat < 128 then 1
  else if c.toNat < 2048 then 2
  else if c.toNat < 65536 then 3
  else 4

/-- Length in bytes of the UTF-8 encoding of a string. -/
def byteLen (s : String) : Nat :=
  s.data.foldl (fun n c => n + utf8Len c) 0

/-! ## ColorResolver: `PIL.ImageColor.getrgb` -/

/-- A resolved colour: an (r, g, b) triple, each component in 0–255. -/
structure RGB where
  r : Nat
  g : Nat
  b : Nat
deriving DecidableEq, Repr

/-- The named-colour table consulted by `ImageColor.getrgb` (the fragment
of PIL's CSS3 colour map covering the names offered by the bot's colour
keyboard — black, white, red, blue, green — together with the common CSS
names around them; lookup is on the lower-cased name). -/
def colormap : List (String × RGB) :=
  [("black", ⟨0, 0, 0⟩),
   ("white", ⟨255, 255, 255⟩),
   ("red", ⟨255, 0, 0⟩),
   ("blue", ⟨0, 0, 255⟩),
   ("green", ⟨0, 128, 0⟩),
   ("yellow", ⟨255, 255, 0⟩),
   ("orange", ⟨255, 165, 0⟩),
   ("purple", ⟨128, 0, 128⟩),
   ("pink", ⟨255, 192, 203⟩),
   ("gray", ⟨128, 128, 128⟩),
   ("grey", ⟨128, 128, 128⟩),
   ("brown", ⟨165, 42, 42⟩),
   ("cyan", ⟨0, 255, 255⟩),
   ("magenta", ⟨255, 0, 255⟩),
   ("lime", ⟨0, 255, 0⟩),
   ("navy", ⟨0, 0, 128⟩),
   ("teal", ⟨0, 128, 128⟩),
   ("olive", ⟨128, 128, 0⟩),
   ("maroon", ⟨128, 0, 0⟩),
   ("silver", ⟨192, 192, 192⟩),
   ("gold", ⟨255, 215, 0⟩),
   ("crimson", ⟨220, 20, 60⟩),
   ("indigo", ⟨75, 0, 130⟩),
   ("violet", ⟨238, 130, 238⟩),
   ("turquoise", ⟨64, 224, 208⟩),
   ("salmon", ⟨250, 128, 114⟩),
   ("khaki", ⟨240, 230, 140⟩),
   ("lavender", ⟨230, 230, 250⟩),
   ("beige", ⟨245, 245, 220⟩),
   ("coral", ⟨255, 127, 80⟩),
   ("ivory", ⟨255, 255, 240⟩),
   ("plum", ⟨221, 160, 221⟩),
   ("orchid", ⟨218, 112, 214⟩),
   ("tan", ⟨210, 180, 140⟩),
   ("wheat", ⟨245, 222, 179⟩),
   ("sienna", ⟨160, 82, 45⟩)]

/-- First-match lookup in the colour table. -/
def lookupColor : List (String × RGB) → String → Option RGB
  | [], _ => none
  | (n, c) :: rest, t => if n = t then some c else lookupColor rest t

/-- Value of a lower-case hexadecimal digit. -/
def hexVal (c : Char) : Option Nat :=
  if '0' ≤ c ∧ c ≤ '9' then some (c.toNat - '0'.toNat)
  else if 'a' ≤ c ∧ c ≤ 'f' then some (c.toNat - 'a'.toNat + 10)
  else none

/-- The `#rgb` and `#rrggbb` hexadecimal forms accepted by
`ImageColor.getrgb` (the four- and eight-digit forms carry an alpha
component and are not produced or consumed anywhere in the bot). -/
def parseHex (t : String) : Option RGB :=
  match t.data with
  | ['#', a, b, c] =>
    match hexVal a, hexVal b, hexVal c with
    | some x, some y, some z => some ⟨17 * x, 17 * y, 17 * z⟩
    | _, _, _ => none
  | ['#', a1, a2, b1, b2, c1, c2] =>
    match hexVal a1, hexVal a2, hexVal b1, hexVal b2, hexVal c1, hexVal c2 with
    | some x1, some x2, some y1, some y2, some z1, some z2 =>
        some ⟨16 * x1 + x2, 16 * y1 + y2, 16 * z1 + z2⟩
    | _, _, _, _, _, _ => none
  | _ => none

/-- `ImageColor.getrgb`: lower-case the input, try the named-colour table,
then the hexadecimal forms; an unrecognised string raises `ValueError`,
modelled as `none`. -/
def getrgb (color : String) : Option RGB :=
  let t := lowerStr color
  match lookupColor colormap t with
  | some c => some c
  | none => parseHex t

/-! ## QREncoder: the `qrcode` library with `version=1`, fit enabled,
`error_correction=ERROR_CORRECT_H` -/

/-- Error-correction tiers of the QR standard. -/
inductive ECLevel where
  | L
  | M
  | Q
  | H
deriving DecidableEq, Repr

/-- The failure kinds of the pipeline. -/
inductive QRError where
  | InvalidColor
  | PayloadTooLarge
  | StoreUnavailable
deriving DecidableEq, Repr

/-- Data-codeword counts for versions 1–40 at error-correction level H,
the capacity table the `qrcode` library checks candidate versions
against. -/
def dataCodewordsH : List Nat :=
  [9, 16, 26, 36, 46, 60, 66, 86, 100, 122,
   140, 158, 180, 197, 223, 253, 283, 313, 341, 385,
   406, 442, 464, 514, 538, 596, 628, 661, 701, 745,
   793, 845, 901, 961, 986, 1054, 1096, 1142, 1222, 1276]

/-- Bit capacity of version `v` at level H. -/
def bitLimitH (v : Nat) : Nat :=
  8 * dataCodewordsH.getD (v - 1) 0

/-- Width of the byte-mode character-count field at version `v`. -/
def charCountBits (v : Nat) : Nat :=
  if v ≤ 9 then 8 else 16

/-- Bits needed to hold an `n`-byte payload in a byte-mode segment at
version `v`: mode indicator, character count, then 8 bits per byte.  (The
library's numeric/alphanumeric segment optimisation can only shrink this,
and does not affect the version-growth policy proved here.) -/
def neededBits (n v : Nat) : Nat :=
  4 + charCountBits v + 8 * n

/-- Whether an `n`-byte payload fits in version `v` at level H. -/
def fitsVersion (n v : Nat) : Bool :=
  neededBits n v ≤ bitLimitH v

/-- One step per candidate version of the library's `best_fit` loop:
starting from version `start`, return the first version that fits,
scanning at most `fuel` versions. -/
def bestFitAux (n : Nat) : Nat → Nat → Option Nat
  | _, 0 => none
  | v, fuel + 1 => if fitsVersion n v then some v else bestFitAux n (v + 1) fuel

/-- `best_fit` as invoked by `make(fit=True)` from the constructor
arguments `version=1`: scan versions 1–40 for the first (hence lowest)
version whose level-H capacity holds the payload; past version 40 the
library raises `DataOverflowError`. -/
def bestFit (n : Nat) : Option Nat :=
  bestFitAux n 1 40

/-- A produced QR symbol: chosen version, error-correction level, module
count per side (`17 + 4·version`), and the dark/light module pattern. -/
structure QRMatrix where
  version : Nat
  ec : ECLevel
  size : Nat
  dark : Nat → Nat → Bool

/-- The encoder.  The module-placement stage of the `qrcode` library
(data codewords, masking, function patterns) is abstracted as the
`pattern` argument — a pure function of the payload and the chosen
version — since none of the specified properties depend on which modules
are dark; version selection and the fixed level-H policy are concrete. -/
def encode (pattern : String → Nat → Nat → Nat → Bool) (text : String) :
    Except QRError QRMatrix :=
  match bestFit (byteLen text) with
  | none => .error .PayloadTooLarge
  | some v => .ok ⟨v, .H, 17 + 4 * v, pattern text v⟩

/-! ## QRRenderer: `make_image(fill_color=…, back_color=…)` followed by
`convert("RGBA")` -/

/-- A pixel with alpha. -/
structure RGBA where
  r : Nat
  g : Nat
  b : Nat
  a : Nat
deriving DecidableEq, Repr

/-- `box_size=10` from the `QRCode` constructor call in `generate_qr`. -/
def box_size : Nat := 10

/-- `border=4` from the `QRCode` constructor call in `generate_qr`. -/
def border : Nat := 4

/-- `convert("RGBA")` on an opaque image: attach a fully opaque alpha. -/
def rgba (c : RGB) : RGBA := ⟨c.r, c.g, c.b, 255⟩

/-- A raster image as a pixel field with declared dimensions. -/
structure Image where
  width : Nat
  height : Nat
  px : Nat → Nat → RGBA

/-- The renderer: every module becomes a `box_size × box_size` block, a
uniform `border`-module frame of background colour surrounds the matrix,
and the whole image is opaque RGBA. -/
def render (m : QRMatrix) (fill bg : RGB) : Image :=
  { width := (m.size + 2 * border) * box_size
    height := (m.size + 2 * border) * box_size
    px := fun x y =>
      let i := x / box_size
      let j := y / box_size
      if border ≤ i ∧ i < border + m.size ∧ border ≤ j ∧ j < border + m.size
          ∧ m.dark (i - border) (j - border) = true
      then rgba fill else rgba bg }

/-! ## `generate_qr` -/

/-- The caption sent with every generated code. -/
def qrCaption : String := "Вот ваш QR-код!"

/-- `generate_qr(data, fill_color, bg_color)`: resolve both colours —
a `ValueError` from either resolution is caught and turns into a `None`
return (`Except.ok none` here) — then encode and render.  A
`DataOverflowError` raised by the encoder is NOT caught and propagates
(`Except.error`). -/
def generate_qr (pattern : String → Nat → Nat → Nat → Bool)
    (data fill_color bg_color : String) : Except QRError (Option Image) :=
  match getrgb fill_color, getrgb bg_color with
  | some fill, some background =>
    match encode pattern data with
    | .error e => .error e
    | .ok m => .ok (some (render m fill background))
  | _, _ => .ok none

/-! ## ConversationState, HistoryStore and the router -/

/-- The per-user slice of `context.user_data`: the optional
`fill_color` / `bg_color` entries written by the colour keyboard. -/
structure UserData where
  fill_color : Option String
  bg_color : Option String
deriving DecidableEq, Repr

/-- One row of the `history` table. -/
structure HistoryRecord where
  user_id : String
  data : String
  fill_color : String
  bg_color : String
  created_at : Nat
deriving DecidableEq, Repr

/-- The bot's state: the keyed per-user conversation store and the
history table (rows in insertion order; `created_at` carries the
timestamp). -/
structure BotState where
  conv : String → UserData
  history : List HistoryRecord

/-- Outbound actions the handlers perform through the transport. -/
inductive Effect where
  | replyPhoto (img : Image) (caption : String)
  | replyText (msg : String)
  | showStart

/-- Outcome of running one handler: the state afterwards, the outbound
effects performed, and — when the handler escaped with an uncaught
exception — the error it raised. -/
structure StepResult where
  state : BotState
  effects : List Effect
  err : Option QRError

/-- Lines 271-272: `context.user_data.get('fill_color', 'black')` and
`context.user_data.get('bg_color', 'white')`. -/
def getColors (s : BotState) (uid : String) : String × String :=
  ((s.conv uid).fill_color.getD "black", (s.conv uid).bg_color.getD "white")

/-- Lines 274-279 of `handle_message`: take the stored (or default)
colours, then, when the payload contains a pipe, split it and use the
first segment as the data and the second/third segments as the colours. -/
def resolveRequest (uid text : String) (s : BotState) : String × String × String :=
  let fill0 := (getColors s uid).1
  let bg0 := (getColors s uid).2
  if pyContains text '|' then
    let parts := pySplit text '|'
    (parts.getD 0 "",
     if 1 < parts.length then parts.getD 1 "" else fill0,
     if 2 < parts.length then parts.getD 2 "" else bg0)
  else (text, fill0, bg0)

/-- `handle_message`: resolve the request, run `generate_qr`; when it
returns an image, append the history row (`session.add` + `commit`,
whose failure — `storeOk = false` — raises out of the handler before
anything is sent), deliver the photo and re-show the start menu; when
`generate_qr` returned `None` the handler falls through its
`if qr_image:` with no else branch and does nothing. -/
def handle_message (pattern : String → Nat → Nat → Nat → Bool)
    (storeOk : Bool) (uid text : String) (now : Nat) (s : BotState) : StepResult :=
  let req := resolveRequest uid text s
  match generate_qr pattern req.1 req.2.1 req.2.2 with
  | .error e => ⟨s, [], some e⟩
  | .ok none => ⟨s, [], none⟩
  | .ok (some img) =>
    if storeOk then
      ⟨⟨s.conv, s.history ++ [⟨uid, req.1, req.2.1, req.2.2, now⟩]⟩,
       [Effect.replyPhoto img qrCaption, Effect.showStart], none⟩
    else ⟨s, [], some .StoreUnavailable⟩

/-- Lines 214-217 of `color_button_handler`: a `color|fc|bc` button
press stores the picked pair into the user's conversation state. -/
def color_button_handler (uid fill bg : String) (s : BotState) : BotState :=
  ⟨fun u => if u = uid then ⟨some fill, some bg⟩ else s.conv u, s.history⟩

/-! ## History retrieval (`show_history` branch of `button_handler`) -/

/-- Descending insertion by `created_at` (a newer or equally new row
stays in front), the sort step of `ORDER BY created_at DESC`. -/
def insertDesc (r : HistoryRecord) : List HistoryRecord → List HistoryRecord
  | [] => [r]
  | x :: xs =>
    if r.created_at ≤ x.created_at then x :: insertDesc r xs
    else r :: x :: xs

/-- Sort a row list newest-first by `created_at`. -/
def sortDesc : List HistoryRecord → List HistoryRecord
  | [] => []
  | x :: xs => insertDesc x (sortDesc xs)

/-- Line 150: `query(QRHistory).filter_by(user_id=…)
.order_by(QRHistory.created_at.desc()).limit(5).all()`. -/
def recentFor (history : List HistoryRecord) (uid : String) : List HistoryRecord :=
  (sortDesc (history.filter (fun r => r.user_id == uid))).take 5

/-- The empty-state reply of the history view. -/
def noHistoryMsg : String := "🚫 У вас пока нет истории."

/-- One formatted history line (the timestamp rendering stands in for
`strftime`, whose exact text no property depends on). -/
def historyLine (r : HistoryRecord) : String :=
  "🔗 `" ++ r.data ++ "`\n🎨 " ++ r.fill_color ++ " | " ++ r.bg_color ++
    "\n🕒 " ++ toString r.created_at ++ "\n\n"

/-- Lines 148-159: the message built by the `show_history` branch. -/
def show_history_msg (history : List HistoryRecord) (uid : String) : String :=
  let recs := recentFor history uid
  if recs.isEmpty then noHistoryMsg
  else recs.foldl (fun m r => m ++ historyLine r)
    "📜 Ваша история последних 5 QR-кодов:\n\n"

/-! ## Shared concrete inputs for the closed statements -/

/-- A concrete module-placement function used to instantiate the
abstracted `pattern` argument in closed statements. -/
def patDemo : String → Nat → Nat → Nat → Bool := fun _ _ _ _ => false

/-- The state before any interaction: no colour ever picked for any
user, empty history table. -/
def emptyState : BotState := ⟨fun _ => ⟨none, none⟩, []⟩

/-- A history table holding one row of another user. -/
def demoHistory : List HistoryRecord := [⟨"8", "x", "black", "white", 5⟩]

/-- A state differing from `emptyState` only in the history table. -/
def demoStateWithHistory : BotState := ⟨fun _ => ⟨none, none⟩, demoHistory⟩

/-- The state after user 7 picked the red-on-white colour button. -/
def demoColorState : BotState := color_button_handler "7" "red" "white" emptyState

/-- A small concrete matrix for closed render statements. -/
def demoMatrix : QRMatrix := ⟨1, ECLevel.H, 21, fun i j => i == j⟩

/-! ## Helper lemmas -/

/-- Zeta-reduced form of `handle_message`. -/
theorem handle_message_eq (pattern : String → Nat → Nat → Nat → Bool)
    (storeOk : Bool) (uid text : String) (now : Nat) (s : BotState) :
    handle_message pattern storeOk uid text now s =
      match generate_qr pattern (resolveRequest uid text s).1
          (resolveRequest uid text s).2.1 (resolveRequest uid text s).2.2 with
      | .error e => ⟨s, [], some e⟩
      | .ok none => ⟨s, [], none⟩
      | .ok (some img) =>
        if storeOk then
          ⟨⟨s.conv, s.history ++ [⟨uid, (resolveRequest uid text s).1,
              (resolveRequest uid text s).2.1, (resolveRequest uid text s).2.2, now⟩]⟩,
           [Effect.replyPhoto img qrCaption, Effect.showStart], none⟩
        else ⟨s, [], some .StoreUnavailable⟩ := rfl

/-- No branch of `handle_message` writes to the conversation store. -/
theorem handle_message_conv (pattern : String → Nat → Nat → Nat → Bool)
    (storeOk : Bool) (uid text : String) (now : Nat) (s : BotState) :
    (handle_message pattern storeOk uid text now s).state.conv = s.conv := by
  rw [handle_message_eq]
  cases generate_qr pattern (resolveRequest uid text s).1 (resolveRequest uid text s).2.1
      (resolveRequest uid text s).2.2 with
  | error e => rfl
  | ok o =>
    cases o with
    | none => rfl
    | some img => cases storeOk <;> rfl

/-- The first version the `best_fit` scan accepts is the least fitting
one in the scanned window. -/
theorem bestFitAux_spec (n : Nat) (fuel : Nat) :
    ∀ start, (∃ v, start ≤ v ∧ v < start + fuel ∧ fitsVersion n v = true) →
    ∃ v, bestFitAux n start fuel = some v ∧ start ≤ v ∧ fitsVersion n v = true ∧
      ∀ w, start ≤ w → w < v → fitsVersion n w = false := by
  induction fuel with
  | zero =>
    rintro start ⟨v, h1, h2, -⟩
    omega
  | succ fuel ih =>
    rintro start ⟨v, h1, h2, h3⟩
    by_cases hs : fitsVersion n start = true
    · exact ⟨start, by simp [bestFitAux, hs], Nat.le_refl _, hs,
        fun w hw1 hw2 => absurd hw1 (by omega)⟩
    · have hsf : fitsVersion n start = false := by
        revert hs
        cases fitsVersion n start <;> simp
      have hvs : start + 1 ≤ v := by
        rcases Nat.eq_or_lt_of_le h1 with he | hl
        · rw [← he] at h3
          rw [hsf] at h3
          exact Bool.noConfusion h3
        · omega
      obtain ⟨u, hu1, hu2, hu3, hu4⟩ := ih (start + 1) ⟨v, hvs, by omega, h3⟩
      refine ⟨u, ?_, by omega, hu3, ?_⟩
      · rw [show bestFitAux n start (fuel + 1)
            = if fitsVersion n start then some start else bestFitAux n (start + 1) fuel from rfl,
          hsf]
        exact hu1
      · intro w hw1 hw2
        rcases Nat.eq_or_lt_of_le hw1 with he | hl
        · rw [← he]
          exact hsf
        · exact hu4 w (by omega) hw2

/-- Membership through a descending insertion. -/
theorem mem_insertDesc {a r : HistoryRecord} {l : List HistoryRecord}
    (h : a ∈ insertDesc r l) : a = r ∨ a ∈ l := by
  induction l with
  | nil =>
    simp [insertDesc] at h
    exact Or.inl h
  | cons x xs ih =>
    by_cases hc : r.created_at ≤ x.created_at
    · rw [insertDesc, if_pos hc] at h
      rcases List.mem_cons.mp h with h1 | h2
      · exact Or.inr (by simp [h1])
      · rcases ih h2 with h3 | h4
        · exact Or.inl h3
        · exact Or.inr (List.mem_cons_of_mem _ h4)
    · rw [insertDesc, if_neg hc] at h
      rcases List.mem_cons.mp h with h1 | h2
      · exact Or.inl h1
      · exact Or.inr h2

/-- Descending insertion preserves the newest-first ordering. -/
theorem pairwise_insertDesc {r : HistoryRecord} {l : List HistoryRecord}
    (hl : l.Pairwise (fun a b => b.created_at ≤ a.created_at)) :
    (insertDesc r l).Pairwise (fun a b => b.created_at ≤ a.created_at) := by
  induction l with
  | nil => simp [insertDesc]
  | cons x xs ih =>
    rcases List.pairwise_cons.mp hl with ⟨hx, hxs⟩
    by_cases hc : r.created_at ≤ x.created_at
    · rw [insertDesc, if_pos hc]
      refine List.pairwise_cons.mpr ⟨?_, ih hxs⟩
      intro a ha
      rcases mem_insertDesc ha with h1 | h2
      · rw [h1]
        exact hc
      · exact hx a h2
    · rw [insertDesc, if_neg hc]
      refine List.pairwise_cons.mpr ⟨?_, hl⟩
      intro a ha
      rcases List.mem_cons.mp ha with h1 | h2
      · rw [h1]
        omega
      · have := hx a h2
        omega

/-- The full sort is ordered newest-first. -/
theorem pairwise_sortDesc (l : List HistoryRecord) :
    (sortDesc l).Pairwise (fun a b => b.created_at ≤ a.created_at) := by
  induction l with
  | nil => simp [sortDesc]
  | cons x xs ih => exact pairwise_insertDesc ih

/-! ## Claims -/

/-- C1, as stated, is false: on a payload whose override colour is
unresolvable, `handle_message` surfaces nothing at all — `generate_qr`
returns `None`, the `if qr_image:` has no else branch, so no
`InvalidColor` (or any) reply is sent and no error is raised. -/
theorem C1_counterexample :
    ¬ ((∃ msg, Effect.replyText msg ∈
          (handle_message patDemo true "7" "hello|purplish|white" 0 emptyState).effects) ∨
        (handle_message patDemo true "7" "hello|purplish|white" 0 emptyState).err =
          some QRError.InvalidColor) := by
  intro h
  rcases h with ⟨msg, hm⟩ | he
  · have h0 : (handle_message patDemo true "7" "hello|purplish|white" 0 emptyState).effects
        = [] := rfl
    rw [h0] at hm
    cases hm
  · have h0 : (handle_message patDemo true "7" "hello|purplish|white" 0 emptyState).err
        = none := rfl
    rw [h0] at he
    exact Option.noConfusion he

/-- C1 (amended): a payload whose resolved fill or background colour
string is unresolvable is silently dropped: `handle_message` sends no
reply of any kind, raises no error, does not substitute other colours,
and leaves the state unchanged. -/
theorem C1_invalid_color_silent_drop (pattern : String → Nat → Nat → Nat → Bool)
    (storeOk : Bool) (uid text : String) (now : Nat) (s : BotState)
    (h : getrgb (resolveRequest uid text s).2.1 = none ∨
         getrgb (resolveRequest uid text s).2.2 = none) :
    handle_message pattern storeOk uid text now s = ⟨s, [], none⟩ := by
  rw [handle_message_eq]
  have hg : generate_qr pattern (resolveRequest uid text s).1
      (resolveRequest uid text s).2.1 (resolveRequest uid text s).2.2 = .ok none := by
    unfold generate_qr
    rcases h with h | h
    · rw [h]
    · cases hf : getrgb (resolveRequest uid text s).2.1 with
      | none => rfl
      | some f => rw [h]
  rw [hg]

/-- C1 witness: the spec's own scenario input. -/
theorem C1_amended_witness :
    handle_message patDemo true "7" "hello|purplish|white" 0 emptyState =
      ⟨emptyState, [], none⟩ :=
  C1_invalid_color_silent_drop patDemo true "7" "hello|purplish|white" 0 emptyState
    (Or.inl (by decide))

/-- C2: a history row is appended only when `generate_qr` produced an
image; on every failing request the history table is left exactly as it
was. -/
theorem C2_no_history_on_failure (pattern : String → Nat → Nat → Nat → Bool)
    (storeOk : Bool) (uid text : String) (now : Nat) (s : BotState) :
    (∃ img, generate_qr pattern (resolveRequest uid text s).1
        (resolveRequest uid text s).2.1 (resolveRequest uid text s).2.2 =
          .ok (some img)) ∨
    (handle_message pattern storeOk uid text now s).state.history = s.history := by
  rw [handle_message_eq]
  cases generate_qr pattern (resolveRequest uid text s).1 (resolveRequest uid text s).2.1
      (resolveRequest uid text s).2.2 with
  | error e => exact Or.inr rfl
  | ok o =>
    cases o with
    | none => exact Or.inr rfl
    | some img => exact Or.inl ⟨img, rfl⟩

/-- C3, as stated, is false: when the history commit fails after a
successful render, the raised exception escapes `handle_message` before
`reply_photo` runs, so the image is NOT delivered and no soft-failure
message is sent. -/
theorem C3_counterexample :
    (handle_message patDemo false "7" "hi" 0 emptyState).err =
        some QRError.StoreUnavailable ∧
    (handle_message patDemo false "7" "hi" 0 emptyState).effects = [] :=
  ⟨rfl, rfl⟩

/-- C3 (amended): a failing history append aborts the handler with
`StoreUnavailable` before anything is sent: the rendered image is not
delivered, no message of any kind goes out, and the state is
unchanged. -/
theorem C3_store_failure_aborts (pattern : String → Nat → Nat → Nat → Bool)
    (uid text : String) (now : Nat) (s : BotState)
    (h : ∃ img, generate_qr pattern (resolveRequest uid text s).1
        (resolveRequest uid text s).2.1 (resolveRequest uid text s).2.2 =
          .ok (some img)) :
    handle_message pattern false uid text now s =
      ⟨s, [], some QRError.StoreUnavailable⟩ := by
  obtain ⟨img, hg⟩ := h
  rw [handle_message_eq, hg]
  rfl

/-- C3 witness: a concrete successful render whose append fails. -/
theorem C3_amended_witness :
    handle_message patDemo false "7" "hi" 0 emptyState =
      ⟨emptyState, [], some QRError.StoreUnavailable⟩ :=
  C3_store_failure_aborts patDemo "7" "hi" 0 emptyState ⟨_, rfl⟩

/-- C4: the error-correction level is H on every produced symbol, and a
payload exceeding the version-1 capacity that fits some supported
version is encoded at the lowest sufficient version — `version=1` in the
constructor is a starting point for `best_fit`, not a ceiling. -/
theorem C4_version_autogrowth :
    (∀ (pattern : String → Nat → Nat → Nat → Bool) (text : String) (m : QRMatrix),
      encode pattern text = .ok m → m.ec = ECLevel.H) ∧
    (∀ (pattern : String → Nat → Nat → Nat → Bool) (text : String),
      fitsVersion (byteLen text) 1 = false →
      (∃ v, 1 ≤ v ∧ v ≤ 40 ∧ fitsVersion (byteLen text) v = true) →
      ∃ m, encode pattern text = .ok m ∧ m.ec = ECLevel.H ∧ 1 < m.version ∧
        fitsVersion (byteLen text) m.version = true ∧
        ∀ w, 1 ≤ w → w < m.version → fitsVersion (byteLen text) w = false) := by
  constructor
  · intro pattern text m hm
    unfold encode at hm
    cases hb : bestFit (byteLen text) <;> rw [hb] at hm
    · exact Except.noConfusion hm
    · cases hm
      rfl
  · intro pattern text h1 h2
    obtain ⟨v, hv1, hv2, hv3⟩ := h2
    obtain ⟨u, hu1, hu2, hu3, hu4⟩ :=
      bestFitAux_spec (byteLen text) 40 1 ⟨v, hv1, by omega, hv3⟩
    refine ⟨⟨u, .H, 17 + 4 * u, pattern text u⟩, ?_, rfl, ?_, hu3, hu4⟩
    · unfold encode bestFit
      rw [hu1]
    · rcases Nat.eq_or_lt_of_le hu2 with he | hl
      · rw [← he] at hu3
        rw [h1] at hu3
        exact Bool.noConfusion hu3
      · exact hl

/-- C4 witness: an 8-byte payload does not fit version 1 (7 bytes at
level H) and is encoded at version 2. -/
theorem C4_witness :
    ∃ m, encode patDemo "abcdefgh" = .ok m ∧ m.ec = ECLevel.H ∧ 1 < m.version ∧
      fitsVersion (byteLen "abcdefgh") m.version = true ∧
      ∀ w, 1 ≤ w → w < m.version → fitsVersion (byteLen "abcdefgh") w = false :=
  C4_version_autogrowth.2 patDemo "abcdefgh" (by decide) ⟨2, by decide, by decide, by decide⟩

/-- C5: the history view never yields more than 5 rows, they are ordered
newest first by timestamp, and a user with no rows gets the empty list,
rendered as the empty-state message rather than an error. -/
theorem C5_recent_history (h : List HistoryRecord) (uid : String) :
    (recentFor h uid).length ≤ 5 ∧
    (recentFor h uid).Pairwise (fun a b => b.created_at ≤ a.created_at) ∧
    (h.filter (fun r => r.user_id == uid) = [] →
      recentFor h uid = [] ∧ show_history_msg h uid = noHistoryMsg) := by
  refine ⟨List.length_take_le 5 _, ?_, ?_⟩
  · exact List.Pairwise.sublist (List.take_sublist 5 _) (pairwise_sortDesc _)
  · intro hf
    constructor
    · rw [recentFor, hf]
      rfl
    · rw [show_history_msg, recentFor, hf]
      rfl

/-- C5 witness: a user with zero rows in a nonempty table. -/
theorem C5_witness :
    (recentFor demoHistory "7").length ≤ 5 ∧
    recentFor demoHistory "7" = [] ∧
    show_history_msg demoHistory "7" = noHistoryMsg :=
  ⟨(C5_recent_history demoHistory "7").1,
   ((C5_recent_history demoHistory "7").2.2 (by decide)).1,
   ((C5_recent_history demoHistory "7").2.2 (by decide)).2⟩

/-- C6: a user whose conversation entry was never written gets the
default colours black on white, and since `handle_message` never writes
the conversation store, a second request with no intervening colour pick
again gets black on white. -/
theorem C6_default_colors (pattern : String → Nat → Nat → Nat → Bool)
    (storeOk : Bool) (uid t1 t2 : String) (n1 : Nat) (s : BotState)
    (h : s.conv uid = ⟨none, none⟩)
    (h1 : pyContains t1 '|' = false) (h2 : pyContains t2 '|' = false) :
    resolveRequest uid t1 s = (t1, "black", "white") ∧
    resolveRequest uid t2 (handle_message pattern storeOk uid t1 n1 s).state =
      (t2, "black", "white") := by
  have hconv := handle_message_conv pattern storeOk uid t1 n1 s
  constructor
  · simp [resolveRequest, getColors, h, h1]
  · simp [resolveRequest, getColors, hconv, h, h2]

/-- C6 witness: two sequential plain requests from an unseen user. -/
theorem C6_witness :
    resolveRequest "7" "hi" emptyState = ("hi", "black", "white") ∧
    resolveRequest "7" "yo" (handle_message patDemo true "7" "hi" 1 emptyState).state =
      ("yo", "black", "white") :=
  C6_default_colors patDemo true "7" "hi" "yo" 1 emptyState rfl (by decide) (by decide)

/-- C7: the rendered image scales every module to a 10-pixel square, has
a uniform 4-module background border on all sides, and its pixels are
RGBA with a fully opaque alpha channel. -/
theorem C7_render_geometry (m : QRMatrix) (fill bg : RGB) (i j u v x y : Nat)
    (hi : i < m.size) (hj : j < m.size) (hu : u < box_size) (hv : v < box_size)
    (hxy : x / box_size < border ∨ border + m.size ≤ x / box_size ∨
           y / box_size < border ∨ border + m.size ≤ y / box_size) :
    (render m fill bg).width = (m.size + 2 * border) * box_size ∧
    (render m fill bg).height = (render m fill bg).width ∧
    (render m fill bg).px ((border + i) * box_size + u) ((border + j) * box_size + v) =
      rgba (if m.dark i j then fill else bg) ∧
    (render m fill bg).px x y = rgba bg ∧
    ∀ a b : Nat, ((render m fill bg).px a b).a = 255 := by
  refine ⟨rfl, rfl, ?_, ?_, ?_⟩
  · unfold render
    dsimp only
    have hbx : ((border + i) * box_size + u) / box_size = border + i := by
      simp only [box_size, border] at hu ⊢
      omega
    have hby : ((border + j) * box_size + v) / box_size = border + j := by
      simp only [box_size, border] at hv ⊢
      omega
    rw [hbx, hby]
    have hii : border + i - border = i := by omega
    have hjj : border + j - border = j := by omega
    rw [hii, hjj]
    cases hd : m.dark i j with
    | true =>
      rw [if_pos ⟨by omega, by omega, by omega, by omega, rfl⟩]
      rfl
    | false =>
      rw [if_neg]
      · rfl
      · rintro ⟨-, -, -, -, h5⟩
        exact Bool.noConfusion h5
  · unfold render
    dsimp only
    rw [if_neg]
    rintro ⟨h1, h2, h3, h4, -⟩
    rcases hxy with hc | hc | hc | hc <;> omega
  · intro a b
    unfold render rgba
    dsimp only
    split <;> rfl

/-- C7 witness: a concrete 21-module matrix rendered black on white. -/
theorem C7_witness :
    (render demoMatrix ⟨0, 0, 0⟩ ⟨255, 255, 255⟩).width = 290 ∧
    (render demoMatrix ⟨0, 0, 0⟩ ⟨255, 255, 255⟩).px 40 40 = rgba ⟨0, 0, 0⟩ ∧
    (render demoMatrix ⟨0, 0, 0⟩ ⟨255, 255, 255⟩).px 0 0 = rgba ⟨255, 255, 255⟩ := by
  have h := C7_render_geometry demoMatrix ⟨0, 0, 0⟩ ⟨255, 255, 255⟩ 0 0 0 0 0 0
    (by decide) (by decide) (by decide) (by decide) (Or.inl (by decide))
  exact ⟨h.1.trans (by decide), h.2.2.1.trans (by decide), h.2.2.2.1⟩

/-- C8: the pipeline is deterministic — its outbound behaviour is a
function of the payload and the requesting user's stored colours alone,
so two runs from states agreeing on that user's conversation entry send
identical replies (in particular, identical image bytes) and raise
identical errors. -/
theorem C8_determinism (pattern : String → Nat → Nat → Nat → Bool)
    (storeOk : Bool) (uid text : String) (now : Nat) (s t : BotState)
    (h : s.conv uid = t.conv uid) :
    (handle_message pattern storeOk uid text now s).effects =
      (handle_message pattern storeOk uid text now t).effects ∧
    (handle_message pattern storeOk uid text now s).err =
      (handle_message pattern storeOk uid text now t).err := by
  have hr : resolveRequest uid text t = resolveRequest uid text s := by
    unfold resolveRequest getColors
    rw [← h]
  rw [handle_message_eq pattern storeOk uid text now s,
    handle_message_eq pattern storeOk uid text now t, hr]
  cases generate_qr pattern (resolveRequest uid text s).1 (resolveRequest uid text s).2.1
      (resolveRequest uid text s).2.2 with
  | error e => exact ⟨rfl, rfl⟩
  | ok o =>
    cases o with
    | none => exact ⟨rfl, rfl⟩
    | some img => cases storeOk <;> exact ⟨rfl, rfl⟩

/-- C8 witness: the same request against two states that differ only in
history produces the same replies. -/
theorem C8_witness :
    (handle_message patDemo true "7" "hi" 0 emptyState).effects =
      (handle_message patDemo true "7" "hi" 0 demoStateWithHistory).effects ∧
    (handle_message patDemo true "7" "hi" 0 emptyState).err =
      (handle_message patDemo true "7" "hi" 0 demoStateWithHistory).err :=
  C8_determinism patDemo true "7" "hi" 0 emptyState demoStateWithHistory rfl

/-- C9: inline `text|fill|bg` overrides are per-request only: the
conversation store is never written by `handle_message`, and when the
payload carries three or more segments the chosen colours do not depend
on the stored state at all. -/
theorem C9_override_no_mutation (pattern : String → Nat → Nat → Nat → Bool)
    (storeOk : Bool) (uid text : String) (now : Nat) (s t : BotState)
    (hp : pyContains text '|' = true) (hl : 3 ≤ (pySplit text '|').length) :
    (handle_message pattern storeOk uid text now s).state.conv = s.conv ∧
    resolveRequest uid text s = resolveRequest uid text t := by
  refine ⟨handle_message_conv pattern storeOk uid text now s, ?_⟩
  have h1 : 1 < (pySplit text '|').length := by omega
  have h2 : 2 < (pySplit text '|').length := by omega
  simp [resolveRequest, hp, h1, h2]

/-- C9 witness: an override payload against the default state and
against a state where red on white was picked. -/
theorem C9_witness :
    (handle_message patDemo true "7" "a|green|black|zzz" 0 emptyState).state.conv =
      emptyState.conv ∧
    resolveRequest "7" "a|green|black|zzz" emptyState =
      resolveRequest "7" "a|green|black|zzz" demoColorState :=
  C9_override_no_mutation patDemo true "7" "a|green|black|zzz" 0 emptyState demoColorState
    (by decide) (by decide)

/-- C10: with four or more pipe-delimited segments, only the first
segment is encoded, the second and third become the colours, and every
further segment is dropped; for any pipe-containing payload the encoded
data is the first segment, never text after the first pipe. -/
theorem C10_extra_segments_discarded (uid text : String) (s : BotState)
    (hp : pyContains text '|' = true) :
    (resolveRequest uid text s).1 = (pySplit text '|').getD 0 "" ∧
    (4 ≤ (pySplit text '|').length →
      resolveRequest uid text s =
        ((pySplit text '|').getD 0 "", (pySplit text '|').getD 1 "",
         (pySplit text '|').getD 2 "")) := by
  constructor
  · simp [resolveRequest, hp]
  · intro hl
    have h1 : 1 < (pySplit text '|').length := by omega
    have h2 : 2 < (pySplit text '|').length := by omega
    simp [resolveRequest, hp, h1, h2]

/-- C10 witness: a five-segment payload keeps only the first three. -/
theorem C10_witness :
    (resolveRequest "7" "a|b|c|d|e" emptyState).1 = "a" ∧
    resolveRequest "7" "a|b|c|d|e" emptyState = ("a", "b", "c") := by
  have h := C10_extra_segments_discarded "7" "a|b|c|d|e" emptyState (by decide)
  exact ⟨h.1.trans (by decide), (h.2 (by decide)).trans (by decide)⟩

end QRBot
